import Mathlib

/-!
Verification of the country ingestion/reconciliation/reporting service
(`src/modules/countries/countries.service.ts`) against its specification.

The service's TypeScript code is shallowly embedded below.  Pure helpers
become Lean functions; the per-item processing of `uploadCountry` becomes an
explicit state-passing function over the persisted store (a list of country
records keyed by lower-cased name); the two external HTTP calls (the country
dataset fetch and the exchange-rate fetch) are abstracted as oracle values
passed in, and `Math.random()` draws are passed in as explicit multiplier
arguments.  JavaScript numbers are modelled as rationals, `null` as `none`.
-/

/-- Mirrors the JavaScript `String.prototype.toLowerCase` for the basic latin
range (the only normalization the service applies to country names, line 249
of countries.service.ts: `country.name.toLowerCase()`). -/
def jsToLower (s : String) : String :=
  String.mk (s.data.map Char.toLower)

/-- Mirrors the JavaScript `String.prototype.toUpperCase` for the basic latin
range (used on the currency filter, line 409: `currency.toUpperCase()`). -/
def jsToUpper (s : String) : String :=
  String.mk (s.data.map Char.toUpper)

/-- Embeds `capitalizeFirstWord` (countries.service.ts lines 172-175):
`str.charAt(0).toUpperCase() + str.slice(1)` — only the first character is
upper-cased, the rest of the string is left exactly as supplied. -/
def capitalizeFirstWord (s : String) : String :=
  match s.data with
  | [] => String.mk []
  | c :: cs => String.mk (c.toUpper :: cs)

/-- Persisted `Country` row (Prisma model used by the service): `name` is the
lower-cased unique key; `currency_code`, `exchange_rate`, `estimated_gdp` and
`flag_url` are nullable. -/
structure CountryRecord where
  name : String
  capital : String
  region : String
  population : ℚ
  currency_code : Option String
  exchange_rate : Option ℚ
  estimated_gdp : Option ℚ
  flag_url : Option String
deriving Repr, DecidableEq

/-- Incoming dataset item (the `Countries` interface, lines 24-32): currency
descriptors are reduced to their codes, which is all the service reads
(`country.currencies?.[0]?.code`). -/
structure IncomingCountry where
  name : String
  capital : String
  region : String
  population : ℚ
  currencies : List String
  flag : String
deriving Repr, DecidableEq

/-- An HTTP exception as thrown by the service (`HttpException(message, status)`). -/
structure HttpError where
  status : Nat
  message : String
deriving Repr, DecidableEq

/-- Error taxonomy of the specification (section 7). -/
inductive ErrorKind where
  | sourceUnavailable
  | sourceError
  | notFound
  | internalError
deriving Repr, DecidableEq

/-- Modelled from the spec: section 7's taxonomy mapped onto the HTTP status
codes the NestJS service uses (`SERVICE_UNAVAILABLE` = 503 for
`SourceUnavailable`, `BAD_GATEWAY` = 502 for `SourceError`, 404 for
`NotFound`, everything else `InternalError`).  Used only to compare the
statuses the code actually produces against the spec's kinds. -/
def specKindOfStatus (s : Nat) : ErrorKind :=
  if s = 503 then ErrorKind.sourceUnavailable
  else if s = 502 then ErrorKind.sourceError
  else if s = 404 then ErrorKind.notFound
  else ErrorKind.internalError

/-- Outcome of the external exchange-rate HTTP call: either the request threw
(timeout, transport error, malformed body) or it returned a rates table. -/
inductive RatesFetch where
  | failure
  | success (rates : List (String × ℚ))
deriving Repr, DecidableEq

/-- Embeds `getExchangeRate` (lines 146-162).  The whole body is inside a
`try` whose `catch` returns `null`, so a fetch failure yields `none`.  On
success the code returns `data.rates[currency_code] || null`: a missing key
yields `null`, and a falsy rate value (zero) is also coerced to `null` by the
`||` operator. -/
def getExchangeRate (outcome : RatesFetch) (currency_code : String) : Option ℚ :=
  match outcome with
  | RatesFetch.failure => none
  | RatesFetch.success rates =>
    match rates.lookup currency_code with
    | none => none
    | some r => if r = 0 then none else some r

/-- Embeds `calculateEstimatedGdp` (lines 164-171).  The `Math.random()`
draw is abstracted as the explicit `multiplier` argument; the source computes
`population * multiplier * exchangeRate`, and returns `null` when the rate is
`null`. -/
def calculateEstimatedGdp (multiplier : ℚ) (exchangeRate : Option ℚ)
    (population : ℚ) : Option ℚ :=
  match exchangeRate with
  | none => none
  | some r => some (population * multiplier * r)

/-- Comparison used to model the store's `orderBy: estimated_gdp desc`
(line 75).  Unknown (`null`) values are placed first, the default of the
PostgreSQL datasource named in the repository's Prisma schema for descending
order; note the query has no `where` clause, so no record is excluded. -/
def gdpDescLe (a b : CountryRecord) : Bool :=
  match a.estimated_gdp, b.estimated_gdp with
  | none, _ => true
  | some _, none => false
  | some x, some y => decide (y ≤ x)

/-- Comparison modelling `orderBy: estimated_gdp asc` (unknown values last). -/
def gdpAscLe (a b : CountryRecord) : Bool :=
  match a.estimated_gdp, b.estimated_gdp with
  | none, none => true
  | none, some _ => false
  | some _, none => true
  | some x, some y => decide (x ≤ y)

/-- The store's find-many ordered by descending `estimated_gdp`. -/
def sortByGdpDesc (l : List CountryRecord) : List CountryRecord :=
  List.insertionSort (fun a b => gdpDescLe a b = true) l

/-- Data content of the rendered summary report (`generateSummaryImage`,
lines 69-94): the total record count and the top-5 list handed to
`generateSVG`, whose ranked lines are exactly the entries of `top` in order. -/
structure Report where
  totalCountries : Nat
  top : List (String × Option ℚ)
deriving Repr, DecidableEq

/-- Embeds the top-5 query of `generateSummaryImage` (lines 74-81):
`findMany` ordered by `estimated_gdp` descending, `take: 5`, selecting
name and `estimated_gdp` — with no filter on unknown GDP values. -/
def topCountriesOf (store : List CountryRecord) : List (String × Option ℚ) :=
  ((sortByGdpDesc store).take 5).map (fun r => (r.name, r.estimated_gdp))

/-- Embeds `generateSummaryImage` (lines 69-94) up to rasterization: the
count and the ranked list that `generateSVG` embeds into the bitmap. -/
def renderReport (store : List CountryRecord) : Report :=
  ⟨store.length, topCountriesOf store⟩

/-- Outcome of one item of the reconciliation run (the tagged objects the
batch tasks return on lines 278, 305 and 311-315). -/
inductive ItemOutcome where
  | created
  | updated
  | failed
deriving Repr, DecidableEq

/-- Per-item oracle values abstracting the item task's environment:
the integer `Math.floor(Math.random()*(2000-1000+1))+1000` draw of the update
branch (line 256), the `Math.random()*(2000-1000)+1000` draw inside
`calculateEstimatedGdp` for the create branch, the outcome of the
exchange-rate HTTP call, and the two distinct failure points of the item's
try block (both absorbed by the inner `catch` of lines 306-316):
`dbThrows` — a persistence call (`findFirst`/`update`/`create`) throws,
before any write or counter increment; `renderThrows` — the awaited
`generateSummaryImage()` call of line 277 or 304 throws, after the write has
committed and the counter has been incremented. -/
structure ItemEnv where
  updMultiplier : ℚ
  createMultiplier : ℚ
  ratesOutcome : RatesFetch
  dbThrows : Bool
  renderThrows : Bool
deriving Repr, DecidableEq

/-- The store's `update` keyed by unique name: replaces the record whose
`name` equals `nm`. -/
def replaceByName (store : List CountryRecord) (nm : String)
    (r : CountryRecord) : List CountryRecord :=
  store.map (fun x => if x.name = nm then r else x)

/-- Embeds one batch task of `uploadCountry` (lines 247-317) up to and
including its DB write — the phase before the awaited per-item
`generateSummaryImage()` call, which `stepItem` models.  If a persistence
call throws (`dbThrows`), the inner `catch` fires before any write: the
store is untouched and the item will settle `failed`.  Otherwise the name is
lower-cased and looked up; a hit takes the update branch of lines 255-279
(existing rate reused, `existing.exchange_rate || 0` coercing a missing rate
to zero, fresh multiplier, only capital/region/population/estimated_gdp
rewritten); a miss takes the create branch of lines 281-305 (first currency
code or none, exchange rate resolved via `getExchangeRate`, GDP via
`calculateEstimatedGdp`). -/
def processItem (env : ItemEnv) (store : List CountryRecord)
    (c : IncomingCountry) : List CountryRecord × ItemOutcome :=
  if env.dbThrows then (store, ItemOutcome.failed)
  else
    let nameLower := jsToLower c.name
    match store.find? (fun r => r.name == nameLower) with
    | some existing =>
      let refetched_estimated_gdp :=
        c.population * (existing.exchange_rate.getD 0) * env.updMultiplier
      let updatedRecord : CountryRecord :=
        { existing with
            capital := c.capital
            region := c.region
            population := c.population
            estimated_gdp := some refetched_estimated_gdp }
      (replaceByName store nameLower updatedRecord, ItemOutcome.updated)
    | none =>
      let currencyCode := c.currencies.head?
      let exchangeRate :=
        match currencyCode with
        | some code => getExchangeRate env.ratesOutcome code
        | none => none
      let estimated_gdp :=
        calculateEstimatedGdp env.createMultiplier exchangeRate c.population
      let newCountry : CountryRecord :=
        ⟨nameLower, c.capital, c.region, c.population, currencyCode,
          exchangeRate, estimated_gdp, some c.flag⟩
      (store ++ [newCountry], ItemOutcome.created)

/-- Counters tallied across the run: `created` and `updated` are the
variables of lines 237-238; `failed` tallies the items whose processing
raised (the `failed`-status results). -/
structure Counters where
  created : Nat
  updated : Nat
  failed : Nat
deriving Repr, DecidableEq

/-- State threaded through the run: the persisted store, the single-slot
report cache (the `cache/summary.png` file), and the counters. -/
structure RunState where
  store : List CountryRecord
  cache : Option Report
  counters : Counters
deriving Repr, DecidableEq

def initialCounters : Counters := ⟨0, 0, 0⟩

/-- One item's settlement, following the statement order of the source: the
DB write commits (`processItem`), then `updated++`/`created++` (lines 276,
303), then the awaited `generateSummaryImage()` (lines 277, 304).  If that
render call throws, the inner `catch` settles the item as `failed` — but the
write and the counter increment have already happened; the cache slot is
modelled unchanged (the throw precedes the file overwrite).  If the render
succeeds, the cache slot is overwritten with a render of the just-committed
store.  A `dbThrows` failure settles `failed` with nothing changed.  The
`failed` counter tallies the items that settle with `failed` status (the
source keeps no such aggregate — its `batchFailed` of lines 326-328 counts
only rejected promises, which never occur since every task catches and
fulfills). -/
def stepItem (st : RunState) (p : IncomingCountry × ItemEnv) : RunState :=
  match processItem p.2 st.store p.1 with
  | (s2, ItemOutcome.created) =>
      if p.2.renderThrows then
        ⟨s2, st.cache,
          ⟨st.counters.created + 1, st.counters.updated,
            st.counters.failed + 1⟩⟩
      else
        ⟨s2, some (renderReport s2),
          ⟨st.counters.created + 1, st.counters.updated, st.counters.failed⟩⟩
  | (s2, ItemOutcome.updated) =>
      if p.2.renderThrows then
        ⟨s2, st.cache,
          ⟨st.counters.created, st.counters.updated + 1,
            st.counters.failed + 1⟩⟩
      else
        ⟨s2, some (renderReport s2),
          ⟨st.counters.created, st.counters.updated + 1, st.counters.failed⟩⟩
  | (_, ItemOutcome.failed) =>
      ⟨st.store, st.cache,
        ⟨st.counters.created, st.counters.updated, st.counters.failed + 1⟩⟩

/-- Structural helper for `chunkList`: the fuel argument only bounds the
recursion depth (any fuel at least the list's length gives the same result,
see `chunkFuel_eq`), keeping the definition kernel-reducible. -/
def chunkFuel {A : Type} : Nat → List A → List (List A)
  | _, [] => []
  | 0, l => [l]
  | fuel + 1, a :: t => ((a :: t).take 10) :: chunkFuel fuel ((a :: t).drop 10)

/-- Embeds the batching loop of lines 240-244: `data.slice(i, i + 10)` for
`i = 0, 10, 20, ...` — consecutive slices of size 10, the last possibly
smaller. -/
def chunkList {A : Type} (l : List A) : List (List A) :=
  chunkFuel l.length l

/-- One batch: `Promise.allSettled` over the batch's item tasks (line 246);
every task of the batch settles before the loop continues.  The settlement
order inside a batch is not observable through the counters; the embedding
fixes the in-order interleaving. -/
def processBatch (st : RunState) (batch : List (IncomingCountry × ItemEnv)) :
    RunState :=
  batch.foldl stepItem st

/-- The batch loop of lines 240-334: batches processed one after the other,
each fully settled before the next starts. -/
def runItems (st : RunState) (items : List (IncomingCountry × ItemEnv)) :
    RunState :=
  (chunkList items).foldl processBatch st

/-- The `processed` tally of line 330: per-batch `processed += batch.length`. -/
def processedCount (items : List (IncomingCountry × ItemEnv)) : Nat :=
  (chunkList items).foldl (fun a b => a + b.length) 0

/-- The object literal returned on line 344:
`return (created, updated, total: processed)` — exactly these three keys. -/
def uploadResultObject (created updated total : Nat) : List (String × Nat) :=
  [("created", created), ("updated", updated), ("total", total)]

/-- Embeds `uploadCountry` (lines 176-361).  The dataset fetch is abstracted
as `fetch`: an error value carries the upstream condition (for a non-2xx
response, its status).  On any fetch error the inner `catch` of lines
208-224 throws `HttpException(503, 'External data source unavailable')`
before any batch runs; that exception reaches the outer `catch` of lines
345-360, which unconditionally rethrows
`HttpException(500, 'Failed to upload countries')` — so the caller observes
status 500 and neither the store nor the cache is touched.  On a successful
fetch the batches run and the counters object of line 344 is returned. -/
def uploadCountry (fetch : Except Nat (List (IncomingCountry × ItemEnv)))
    (store : List CountryRecord) (cache : Option Report) :
    RunState × Except HttpError (List (String × Nat)) :=
  match fetch with
  | Except.error _ =>
      (⟨store, cache, initialCounters⟩,
        Except.error ⟨500, "Failed to upload countries"⟩)
  | Except.ok items =>
      let final := runItems ⟨store, cache, initialCounters⟩ items
      (final, Except.ok (uploadResultObject final.counters.created
        final.counters.updated (processedCount items)))

/-- Embeds `deleteCountry` (lines 382-396): `db.country.delete` with the
name as unique key.  When no record matches, the Prisma client rejects with
a not-found error that is not an `HttpException`, so the `catch` wraps it as
`HttpException(500, 'Internal server Error')`.  When a record matches it is
removed and returned. -/
def deleteCountry (store : List CountryRecord) (nm : String) :
    List CountryRecord × Except HttpError CountryRecord :=
  match store.find? (fun r => r.name == nm) with
  | some r => (store.filter (fun x => x.name != nm), Except.ok r)
  | none => (store, Except.error ⟨500, "Internal server Error"⟩)

/-- Embeds `getAllCountries` (lines 397-435).  With all three query
parameters empty (falsy) it returns the unfiltered `findMany`.  Otherwise a
region filter compares `region` against `capitalizeFirstWord(region)`
exactly, a currency filter compares `currency_code` against the upper-cased
currency, `sort=gdp_asc` and `sort=gdp_desc` order by `estimated_gdp` (the
stray `sort` key the code also places inside `where` is modelled as inert),
and an empty result is a 404.  Any other `sort` value leaves the order
unchanged. -/
def regionFiltered (store : List CountryRecord) (region : String) :
    List CountryRecord :=
  if region = "" then store
  else store.filter (fun r => r.region == capitalizeFirstWord region)

def currencyFiltered (l : List CountryRecord) (currency : String) :
    List CountryRecord :=
  if currency = "" then l
  else l.filter (fun r => r.currency_code == some (jsToUpper currency))

def sortedByQuery (l : List CountryRecord) (sort : String) :
    List CountryRecord :=
  if sort = "gdp_asc" then
    List.insertionSort (fun a b => gdpAscLe a b = true) l
  else if sort = "gdp_desc" then sortByGdpDesc l
  else l

def getAllCountries (store : List CountryRecord)
    (region currency sort : String) :
    Except HttpError (List CountryRecord) :=
  if region = "" ∧ currency = "" ∧ sort = "" then Except.ok store
  else if (sortedByQuery (currencyFiltered (regionFiltered store region)
      currency) sort).isEmpty then
    Except.error ⟨404, "Country not found"⟩
  else
    Except.ok (sortedByQuery (currencyFiltered (regionFiltered store region)
      currency) sort)

theorem chunkFuel_irrel {A : Type} (n : Nat) (l : List A)
    (hn : l.length ≤ n) (f1 f2 : Nat) (h1 : l.length ≤ f1)
    (h2 : l.length ≤ f2) : chunkFuel f1 l = chunkFuel f2 l := by
  induction n generalizing l f1 f2 with
  | zero =>
    have : l = [] := by
      cases l
      · rfl
      · simp at hn
    subst this
    simp [chunkFuel]
  | succ n ih =>
    cases l with
    | nil => simp [chunkFuel]
    | cons a t =>
      simp only [List.length_cons] at hn h1 h2
      rcases f1 with _ | g1
      · omega
      rcases f2 with _ | g2
      · omega
      show ((a :: t).take 10) :: chunkFuel g1 ((a :: t).drop 10) =
        ((a :: t).take 10) :: chunkFuel g2 ((a :: t).drop 10)
      have hd : ((a :: t).drop 10).length ≤ n := by
        simp [List.length_drop]
        omega
      rw [ih ((a :: t).drop 10) hd g1 g2 (by simp [List.length_drop]; omega)
        (by simp [List.length_drop]; omega)]

theorem chunkFuel_eq {A : Type} (fuel : Nat) (l : List A)
    (h : l.length ≤ fuel) : chunkFuel fuel l = chunkFuel l.length l :=
  chunkFuel_irrel l.length l (le_refl _) fuel l.length h (le_refl _)

theorem chunkList_cons {A : Type} (a : A) (t : List A) :
    chunkList (a :: t) =
      ((a :: t).take 10) :: chunkList ((a :: t).drop 10) := by
  show chunkFuel (t.length + 1) (a :: t) = _
  show ((a :: t).take 10) :: chunkFuel t.length ((a :: t).drop 10) = _
  rw [chunkFuel_eq t.length ((a :: t).drop 10)
    (by simp [List.length_drop])]
  rfl

theorem chunkList_bounded_rec {A : Type} (n : Nat) (l : List A)
    (hn : l.length ≤ n) :
    (chunkList l).flatten = l ∧
    (∀ b ∈ chunkList l, b ≠ [] ∧ b.length ≤ 10) ∧
    (∀ b ∈ (chunkList l).dropLast, b.length = 10) := by
  induction n generalizing l with
  | zero =>
    have : l = [] := by
      cases l
      · rfl
      · simp at hn
    subst this
    refine ⟨rfl, ?_, ?_⟩ <;> intro b hb <;> simp [chunkList, chunkFuel] at hb
  | succ n ih =>
    cases l with
    | nil =>
      refine ⟨rfl, ?_, ?_⟩ <;> intro b hb <;>
        simp [chunkList, chunkFuel] at hb
    | cons a t =>
      have hdrop : ((a :: t).drop 10).length ≤ n := by
        simp only [List.length_cons] at hn
        simp [List.length_drop]
        omega
      obtain ⟨ihj, ihm, ihf⟩ := ih ((a :: t).drop 10) hdrop
      refine ⟨?_, ?_, ?_⟩
      · rw [chunkList_cons]
        simp only [List.flatten_cons, ihj, List.take_append_drop]
      · intro b hb
        rw [chunkList_cons] at hb
        rcases List.mem_cons.mp hb with h | h
        · subst h
          refine ⟨by simp, ?_⟩
          simp [List.length_take_le]
        · exact ihm b h
      · intro b hb
        rw [chunkList_cons] at hb
        rcases hr : chunkList ((a :: t).drop 10) with _ | ⟨c, rest⟩
        · rw [hr] at hb; simp at hb
        · rw [hr] at hb
          rw [List.dropLast_cons_of_ne_nil (by simp)] at hb
          rcases List.mem_cons.mp hb with h | h
          · subst h
            have hd : (a :: t).drop 10 ≠ [] := by
              intro hc
              rw [hc] at hr
              exact List.noConfusion hr
            have h4 : 10 ≤ (a :: t).length := by
              by_contra hc
              push_neg at hc
              exact hd (List.drop_eq_nil_of_le (by omega))
            simp only [List.length_cons] at h4
            simp [List.length_take]
            omega
          · exact ihf b (by rw [hr]; exact h)

theorem chunkList_join {A : Type} (l : List A) : (chunkList l).flatten = l :=
  (chunkList_bounded_rec l.length l (le_refl _)).1

theorem chunkList_mem_len {A : Type} (l : List A) (b : List A)
    (hb : b ∈ chunkList l) : b ≠ [] ∧ b.length ≤ 10 :=
  (chunkList_bounded_rec l.length l (le_refl _)).2.1 b hb

theorem chunkList_full {A : Type} (l : List A) (b : List A)
    (hb : b ∈ (chunkList l).dropLast) : b.length = 10 :=
  (chunkList_bounded_rec l.length l (le_refl _)).2.2 b hb

theorem runItems_eq_foldl (st : RunState)
    (items : List (IncomingCountry × ItemEnv)) :
    runItems st items = items.foldl stepItem st := by
  unfold runItems processBatch
  conv_rhs => rw [← chunkList_join items]
  rw [List.foldl_flatten]

theorem processItem_db (env : ItemEnv) (store : List CountryRecord)
    (c : IncomingCountry) (h : env.dbThrows = true) :
    processItem env store c = (store, ItemOutcome.failed) := by
  simp [processItem, h]

theorem processItem_commits (env : ItemEnv) (store : List CountryRecord)
    (c : IncomingCountry) (h : env.dbThrows = false) :
    (processItem env store c).2 = ItemOutcome.updated ∨
      (processItem env store c).2 = ItemOutcome.created := by
  simp only [processItem, h]
  rcases hf : store.find? (fun r => r.name == jsToLower c.name) with _ | e <;>
    simp [hf]

theorem stepItem_counts (st : RunState) (p : IncomingCountry × ItemEnv) :
    ((stepItem st p).counters.created + (stepItem st p).counters.updated =
      st.counters.created + st.counters.updated +
        (if p.2.dbThrows then 0 else 1)) ∧
    ((stepItem st p).counters.failed =
      st.counters.failed +
        (if p.2.dbThrows || p.2.renderThrows then 1 else 0)) := by
  by_cases hdb : p.2.dbThrows = true
  · have h0 := processItem_db p.2 st.store p.1 hdb
    simp [stepItem, h0, hdb]
  · have hdb2 : p.2.dbThrows = false := by simpa using hdb
    rcases hp : processItem p.2 st.store p.1 with ⟨s2, o⟩
    have hc := processItem_commits p.2 st.store p.1 hdb2
    rw [hp] at hc
    by_cases hrd : p.2.renderThrows = true
    · rcases hc with ho | ho <;> simp only at ho <;> subst ho <;>
        simp [stepItem, hp, hdb2, hrd] <;> omega
    · have hrd2 : p.2.renderThrows = false := by simpa using hrd
      rcases hc with ho | ho <;> simp only at ho <;> subst ho <;>
        simp [stepItem, hp, hdb2, hrd2] <;> omega

theorem foldl_counts (items : List (IncomingCountry × ItemEnv)) (st : RunState) :
    ((items.foldl stepItem st).counters.created +
        (items.foldl stepItem st).counters.updated
      = st.counters.created + st.counters.updated +
          (items.filter (fun p => !p.2.dbThrows)).length) ∧
    ((items.foldl stepItem st).counters.failed
      = st.counters.failed +
          (items.filter (fun p => p.2.dbThrows || p.2.renderThrows)).length) := by
  induction items generalizing st with
  | nil => simp
  | cons p t ih =>
    simp only [List.foldl_cons, List.filter_cons]
    obtain ⟨ih1, ih2⟩ := ih (stepItem st p)
    obtain ⟨hs1, hs2⟩ := stepItem_counts st p
    constructor
    · rw [ih1, hs1]
      by_cases hdb : p.2.dbThrows = true
      · simp [hdb]
      · have hdb2 : p.2.dbThrows = false := by simpa using hdb
        simp [hdb2]
        omega
    · rw [ih2, hs2]
      by_cases hdb : p.2.dbThrows = true
      · simp [hdb]
        omega
      · have hdb2 : p.2.dbThrows = false := by simpa using hdb
        by_cases hrd : p.2.renderThrows = true
        · simp [hdb2, hrd]
          omega
        · have hrd2 : p.2.renderThrows = false := by simpa using hrd
          simp [hdb2, hrd2]

theorem length_filter_db (items : List (IncomingCountry × ItemEnv)) :
    (items.filter (fun p => !p.2.dbThrows)).length +
      (items.filter (fun p => p.2.dbThrows)).length = items.length := by
  induction items with
  | nil => rfl
  | cons p t ih =>
    simp only [List.filter_cons, List.length_cons]
    by_cases hdb : p.2.dbThrows = true <;> simp [hdb] <;> omega

theorem length_filter_or (items : List (IncomingCountry × ItemEnv)) :
    (items.filter (fun p => p.2.dbThrows || p.2.renderThrows)).length =
      (items.filter (fun p => p.2.dbThrows)).length +
        (items.filter (fun p => !p.2.dbThrows && p.2.renderThrows)).length := by
  induction items with
  | nil => rfl
  | cons p t ih =>
    simp only [List.filter_cons]
    by_cases hdb : p.2.dbThrows = true
    · simp [hdb, ih]
      omega
    · have hdb2 : p.2.dbThrows = false := by simpa using hdb
      by_cases hrd : p.2.renderThrows = true
      · simp [hdb2, hrd, ih]
        omega
      · have hrd2 : p.2.renderThrows = false := by simpa using hrd
        simp [hdb2, hrd2, ih]

theorem foldl_add_length {A : Type} (L : List (List A)) (n : Nat) :
    L.foldl (fun a b => a + b.length) n = n + L.flatten.length := by
  induction L generalizing n with
  | nil => simp
  | cons b t ih =>
    simp only [List.foldl_cons, List.flatten_cons, List.length_append]
    rw [ih]
    omega

theorem processedCount_eq (items : List (IncomingCountry × ItemEnv)) :
    processedCount items = items.length := by
  unfold processedCount
  have h := foldl_add_length (chunkList items) 0
  rw [h, chunkList_join]
  omega

theorem toLower_toUpper (c : Char) : c.toUpper.toLower = c.toLower := by
  by_cases h : 97 ≤ c.toNat ∧ c.toNat ≤ 122
  · have hc : Char.ofNat c.toNat = c := Char.ofNat_toNat c
    have hd : c.toNat = 97 ∨ c.toNat = 98 ∨ c.toNat = 99 ∨ c.toNat = 100 ∨
        c.toNat = 101 ∨ c.toNat = 102 ∨ c.toNat = 103 ∨ c.toNat = 104 ∨
        c.toNat = 105 ∨ c.toNat = 106 ∨ c.toNat = 107 ∨ c.toNat = 108 ∨
        c.toNat = 109 ∨ c.toNat = 110 ∨ c.toNat = 111 ∨ c.toNat = 112 ∨
        c.toNat = 113 ∨ c.toNat = 114 ∨ c.toNat = 115 ∨ c.toNat = 116 ∨
        c.toNat = 117 ∨ c.toNat = 118 ∨ c.toNat = 119 ∨ c.toNat = 120 ∨
        c.toNat = 121 ∨ c.toNat = 122 := by omega
    rcases hd with h | h | h | h | h | h | h | h | h | h | h | h | h | h | h |
      h | h | h | h | h | h | h | h | h | h | h <;> (rw [← hc, h]; decide)
  · have hu : c.toUpper = c := by
      unfold Char.toUpper
      rw [if_neg (by omega)]
    rw [hu]

theorem jsToLower_capitalizeFirstWord (s : String) :
    jsToLower (capitalizeFirstWord s) = jsToLower s := by
  unfold capitalizeFirstWord jsToLower
  rcases hd : s.data with _ | ⟨c, cs⟩
  · rfl
  · simp [toLower_toUpper]

/-- C2 (counterexample): with one persisted record and a cached report, a run
whose dataset fetch fails with upstream HTTP 500 returns
`HttpException(500, 'Failed to upload countries')` — the `InternalError`
shape, not the spec's `SourceError` kind — while leaving the store and the
cache exactly as they were. -/
theorem c2_counterexample :
    uploadCountry (Except.error 500)
        [⟨"aland", "Mariehamn", "Europe", 30000, some "EUR", some (11/10),
          some 33000000, some "flag.png"⟩]
        (some ⟨1, [("aland", some 33000000)]⟩) =
      (⟨[⟨"aland", "Mariehamn", "Europe", 30000, some "EUR", some (11/10),
          some 33000000, some "flag.png"⟩],
        some ⟨1, [("aland", some 33000000)]⟩, initialCounters⟩,
        Except.error ⟨500, "Failed to upload countries"⟩) ∧
    specKindOfStatus 500 = ErrorKind.internalError ∧
    ErrorKind.internalError ≠ ErrorKind.sourceError := by
  refine ⟨rfl, rfl, by decide⟩

/-- C2 (amended): on every fetch failure, whatever the upstream condition,
`uploadCountry` fails with `HttpException(500, 'Failed to upload countries')`
(the spec's `InternalError` kind — the intermediate 503 thrown at lines
212-218 is swallowed by the unconditional outer catch of lines 345-360), and
the store and the cached report are left unchanged. -/
theorem c2_fetch_failure_aborts (upstream : Nat)
    (store : List CountryRecord) (cache : Option Report) :
    uploadCountry (Except.error upstream) store cache =
      (⟨store, cache, initialCounters⟩,
        Except.error ⟨500, "Failed to upload countries"⟩) ∧
    specKindOfStatus 500 = ErrorKind.internalError := by
  exact ⟨rfl, rfl⟩

/-- C5 (code bug): deleting a name with no matching record fails with
`HttpException(500, 'Internal server Error')`, not the `NotFound` the spec
(and the controller's own dead not-found check) intend; deleting an existing
name succeeds and removes the record. -/
theorem c5_delete_divergence :
    deleteCountry [] "atlantis" =
      ([], Except.error ⟨500, "Internal server Error"⟩) ∧
    specKindOfStatus 500 ≠ ErrorKind.notFound ∧
    deleteCountry
        [⟨"aland", "Mariehamn", "Europe", 30000, some "EUR", some (11/10),
          some 33000000, some "flag.png"⟩] "aland" =
      ([], Except.ok ⟨"aland", "Mariehamn", "Europe", 30000, some "EUR",
        some (11/10), some 33000000, some "flag.png"⟩) := by
  refine ⟨rfl, by decide, rfl⟩

/-- C7: the GDP estimate is unknown exactly when the rate is unknown;
otherwise it is `population * multiplier * rate`, so with the multiplier
anywhere in the range 1000 to 2000 the scenario record (population 30000,
rate 1.1) gets an estimate between 33000000 and 66000000. -/
theorem c7_gdp_estimate (m population rate : ℚ)
    (h1 : 1000 ≤ m) (h2 : m ≤ 2000) :
    calculateEstimatedGdp m none population = none ∧
    calculateEstimatedGdp m (some rate) population =
      some (population * m * rate) ∧
    (∀ g : ℚ, calculateEstimatedGdp m (some (11/10)) 30000 = some g →
      33000000 ≤ g ∧ g ≤ 66000000) := by
  refine ⟨rfl, rfl, ?_⟩
  intro g hg
  simp only [calculateEstimatedGdp, Option.some.injEq] at hg
  constructor <;> nlinarith [hg]

/-- Witness for `c7_gdp_estimate` at the multiplier 1500. -/
theorem c7_witness : (33000000 : ℚ) ≤ 49500000 ∧ (49500000 : ℚ) ≤ 66000000 :=
  (c7_gdp_estimate 1500 30000 (11/10) (by norm_num) (by norm_num)).2.2
    49500000 (by norm_num [calculateEstimatedGdp])

/-- C8 (counterexample): a successful exchange-rate response that carries the
rate 0 for the requested code is coerced to unknown by `|| null`, so the
resolver does not return the rate found under the requested code. -/
theorem c8_counterexample :
    getExchangeRate (RatesFetch.success [("EUR", 0)]) "EUR" = none ∧
    List.lookup "EUR" [("EUR", (0 : ℚ))] = some 0 := by
  refine ⟨rfl, rfl⟩

/-- C8 (amended): the resolver is total (it never propagates an exception —
every outcome yields a value): any fetch failure yields unknown, a response
without the requested code yields unknown, a response with a zero (falsy)
rate under the code yields unknown, and a response with a nonzero rate under
the code yields exactly that rate. -/
theorem c8_resolver_total (outcome : RatesFetch) (code : String) :
    (outcome = RatesFetch.failure → getExchangeRate outcome code = none) ∧
    (∀ rates, outcome = RatesFetch.success rates →
      (rates.lookup code = none → getExchangeRate outcome code = none) ∧
      (rates.lookup code = some 0 → getExchangeRate outcome code = none) ∧
      (∀ r : ℚ, rates.lookup code = some r → r ≠ 0 →
        getExchangeRate outcome code = some r)) := by
  constructor
  · intro h; rw [h]; rfl
  · intro rates h
    subst h
    refine ⟨?_, ?_, ?_⟩
    · intro hl; simp [getExchangeRate, hl]
    · intro hl; simp [getExchangeRate, hl]
    · intro r hl hr; simp [getExchangeRate, hl, hr]

/-- Witness for `c8_resolver_total`: a successful response carrying rate 1.1
under "EUR" resolves to 1.1. -/
theorem c8_witness :
    getExchangeRate (RatesFetch.success [("EUR", 11/10)]) "EUR" =
      some (11/10) :=
  ((c8_resolver_total (RatesFetch.success [("EUR", 11/10)]) "EUR").2
    [("EUR", 11/10)] rfl).2.2 (11/10) rfl (by norm_num)

/-- C3 (counterexample): when the exchange-rate call fails, the item is
created with unknown rate and unknown GDP — and, the top-5 query having no
filter on unknown GDP, that very record appears in the next rendered
report's ranked list. -/
theorem c3_counterexample :
    processItem ⟨1500, 1500, RatesFetch.failure, false, false⟩ []
        ⟨"Aland", "Mariehamn", "Europe", 30000, ["EUR"], "flag.png"⟩ =
      ([⟨"aland", "Mariehamn", "Europe", 30000, some "EUR", none, none,
        some "flag.png"⟩], ItemOutcome.created) ∧
    (renderReport [⟨"aland", "Mariehamn", "Europe", 30000, some "EUR", none,
        none, some "flag.png"⟩]).top = [("aland", none)] := by
  refine ⟨rfl, rfl⟩

/-- C3 (amended): the top-5 query excludes nothing — any record with
unknown `estimated_gdp` appears in the rendered list whenever the store
holds at most five records (and with the modelled descending null-first
order it is in fact ranked at the top). -/
theorem c3_unknown_gdp_listed (store : List CountryRecord)
    (r : CountryRecord) (hmem : r ∈ store) (hgdp : r.estimated_gdp = none)
    (hlen : store.length ≤ 5) :
    (r.name, (none : Option ℚ)) ∈ (renderReport store).top := by
  unfold renderReport topCountriesOf
  have hs : r ∈ sortByGdpDesc store := by
    unfold sortByGdpDesc
    exact (List.mem_insertionSort _).mpr hmem
  have hlen2 : (sortByGdpDesc store).length ≤ 5 := by
    unfold sortByGdpDesc
    rw [(List.perm_insertionSort _ store).length_eq]
    exact hlen
  rw [List.take_of_length_le hlen2]
  have hmap := List.mem_map_of_mem (fun x => (x.name, x.estimated_gdp)) hs
  simpa [hgdp] using hmap

/-- Witness for `c3_unknown_gdp_listed`: the scenario record itself. -/
theorem c3_witness :
    (("aland", (none : Option ℚ)) ∈
      (renderReport [⟨"aland", "Mariehamn", "Europe", 30000, some "EUR",
        none, none, some "flag.png"⟩]).top) :=
  c3_unknown_gdp_listed
    [⟨"aland", "Mariehamn", "Europe", 30000, some "EUR", none, none,
      some "flag.png"⟩]
    ⟨"aland", "Mariehamn", "Europe", 30000, some "EUR", none, none,
      some "flag.png"⟩ (by simp) rfl (by simp)

/-- C6: when the lower-cased incoming name matches an existing record, the
update overwrites exactly capital, region, population and estimated_gdp
(the GDP recomputed as population times the existing rate times the fresh
multiplier), keeps currency_code, exchange_rate and flag_url, counts the
item as updated — and never consults the exchange-rate resolver: the result
is identical under any other resolver outcome and create-multiplier. -/
theorem c6_update_frame (env env2 : ItemEnv) (store : List CountryRecord)
    (c : IncomingCountry) (existing : CountryRecord)
    (ht : env.dbThrows = false) (ht2 : env2.dbThrows = false)
    (hm : env2.updMultiplier = env.updMultiplier)
    (hfind : store.find? (fun r => r.name == jsToLower c.name) =
      some existing) :
    processItem env store c = processItem env2 store c ∧
    (processItem env store c).2 = ItemOutcome.updated ∧
    (processItem env store c).1 = replaceByName store (jsToLower c.name)
      { existing with
          capital := c.capital
          region := c.region
          population := c.population
          estimated_gdp := some (c.population *
            existing.exchange_rate.getD 0 * env.updMultiplier) } := by
  refine ⟨?_, ?_, ?_⟩ <;> simp only [processItem, ht, ht2, hm, hfind] <;>
    simp

def c6Rec : CountryRecord :=
  ⟨"aland", "Old", "OldRegion", 100, some "EUR", some 2, some 5, some "f.png"⟩

def c6Inc : IncomingCountry :=
  ⟨"Aland", "Mariehamn", "Europe", 30000, [], "new.png"⟩

def c6Env : ItemEnv := ⟨1500, 1200, RatesFetch.failure, false, false⟩

def c6Env2 : ItemEnv := ⟨1500, 1300, RatesFetch.success [("EUR", 3)], false, false⟩

/-- Witness for `c6_update_frame`: a concrete matching item counts as
updated, with the same result under a different resolver outcome. -/
theorem c6_witness :
    (processItem c6Env [c6Rec] c6Inc).2 = ItemOutcome.updated ∧
    processItem c6Env [c6Rec] c6Inc = processItem c6Env2 [c6Rec] c6Inc := by
  have h := c6_update_frame c6Env c6Env2 [c6Rec] c6Inc c6Rec rfl rfl rfl rfl
  exact ⟨h.2.1, h.1⟩

/-- C10: on the update path, an existing record whose exchange rate is
unknown gets `estimated_gdp` written as the known value 0 — the rate is
coerced to 0 by `existing.exchange_rate || 0` before the multiplication —
rather than staying unknown. -/
theorem c10_null_rate_zero_gdp (env : ItemEnv) (store : List CountryRecord)
    (c : IncomingCountry) (existing : CountryRecord)
    (ht : env.dbThrows = false)
    (hfind : store.find? (fun r => r.name == jsToLower c.name) =
      some existing)
    (hrate : existing.exchange_rate = none) :
    (processItem env store c).2 = ItemOutcome.updated ∧
    (processItem env store c).1 = replaceByName store (jsToLower c.name)
      { existing with
          capital := c.capital
          region := c.region
          population := c.population
          estimated_gdp := some 0 } := by
  refine ⟨?_, ?_⟩ <;> simp only [processItem, ht, hfind, hrate] <;> simp

def c10Rec : CountryRecord :=
  ⟨"aland", "Old", "OldRegion", 100, none, none, none, none⟩

def c10Inc : IncomingCountry :=
  ⟨"Aland", "Mariehamn", "Europe", 30000, ["EUR"], "f.png"⟩

def c10Env : ItemEnv := ⟨1500, 1500, RatesFetch.failure, false, false⟩

/-- Witness for `c10_null_rate_zero_gdp`: the concrete unknown-rate record
acquires the known GDP 0. -/
theorem c10_witness :
    (processItem c10Env [c10Rec] c10Inc).1 =
      [⟨"aland", "Mariehamn", "Europe", 30000, none, none, some 0, none⟩] := by
  have h := c10_null_rate_zero_gdp c10Env [c10Rec] c10Inc c10Rec rfl rfl rfl
  rw [h.2]
  rfl

theorem mem_sortedByQuery (l : List CountryRecord) (sort : String)
    (rec : CountryRecord) (h : rec ∈ sortedByQuery l sort) : rec ∈ l := by
  unfold sortedByQuery at h
  split_ifs at h
  · exact (List.mem_insertionSort _).mp h
  · exact (List.mem_insertionSort _).mp h
  · exact h

theorem mem_currencyFiltered (l : List CountryRecord) (currency : String)
    (rec : CountryRecord) (h : rec ∈ currencyFiltered l currency) :
    rec ∈ l := by
  unfold currencyFiltered at h
  split_ifs at h
  · exact h
  · exact List.mem_of_mem_filter h

theorem mem_regionFiltered (store : List CountryRecord) (region : String)
    (rec : CountryRecord) (hr : region ≠ "")
    (h : rec ∈ regionFiltered store region) :
    rec.region = capitalizeFirstWord region := by
  unfold regionFiltered at h
  rw [if_neg hr] at h
  have := List.of_mem_filter h
  exact eq_of_beq this

/-- C4: whatever the letter case of a nonempty region query, every record a
successful `getAllCountries` call returns satisfies the region predicate:
its region, case-normalized, equals the case-normalized query (the filter
matches the exact string `capitalizeFirstWord region`, which lower-cases to
the query itself). -/
theorem c4_region_filter (store : List CountryRecord)
    (region currency sort : String) (res : List CountryRecord)
    (hr : region ≠ "")
    (hres : getAllCountries store region currency sort = Except.ok res) :
    ∀ rec ∈ res, jsToLower rec.region = jsToLower region := by
  intro rec hrec
  unfold getAllCountries at hres
  rw [if_neg (fun h => hr h.1)] at hres
  by_cases he : (sortedByQuery (currencyFiltered (regionFiltered store region)
      currency) sort).isEmpty
  · rw [if_pos he] at hres
    exact absurd hres (by simp)
  · rw [if_neg he] at hres
    have hsub : res = sortedByQuery (currencyFiltered
        (regionFiltered store region) currency) sort :=
      (Except.ok.injEq _ _).mp hres.symm
    subst hsub
    have h1 := mem_sortedByQuery _ _ _ hrec
    have h2 := mem_currencyFiltered _ _ _ h1
    have h3 := mem_regionFiltered _ _ _ hr h2
    rw [h3, jsToLower_capitalizeFirstWord]

def c4Rec : CountryRecord :=
  ⟨"aland", "Mariehamn", "Europe", 30000, some "EUR", none, none, none⟩

/-- Witness for `c4_region_filter`: the query "europe" succeeds against a
store whose record has region "Europe", and the returned record's
lower-cased region equals the lower-cased query. -/
theorem c4_witness : jsToLower c4Rec.region = jsToLower "europe" :=
  c4_region_filter [c4Rec] "europe" "" "" [c4Rec] (by decide) (by rfl)
    c4Rec (by simp)

/-- C1 (counterexample), both failure modes of a per-item exception.
First, an item whose persistence call throws: the run returns the object
with keys created, updated and total only — there is no failed counter in
the returned record.  Second, an item whose DB write commits but whose
awaited per-item render call then throws: the item settles with failed
status although `created` was already incremented, so even tallying the
settled failed statuses gives created + updated + failed = 2 over a one-item
dataset — the claimed identity `created + updated + failed == total` does
not hold on the code. -/
theorem c1_counterexample :
    ((uploadCountry (Except.ok
        [(⟨"Aland", "Mariehamn", "Europe", 30000, ["EUR"], "flag.png"⟩,
          ⟨1500, 1500, RatesFetch.failure, true, false⟩)]) [] none).2 =
      Except.ok (uploadResultObject 0 0 1) ∧
    List.lookup "failed" (uploadResultObject 0 0 1) = none) ∧
    ((uploadCountry (Except.ok
        [(⟨"Aland", "Mariehamn", "Europe", 30000, ["EUR"], "flag.png"⟩,
          ⟨1500, 1500, RatesFetch.failure, false, true⟩)]) [] none).1.counters
      = ⟨1, 0, 1⟩ ∧
    (uploadCountry (Except.ok
        [(⟨"Aland", "Mariehamn", "Europe", 30000, ["EUR"], "flag.png"⟩,
          ⟨1500, 1500, RatesFetch.failure, false, true⟩)]) [] none).2 =
      Except.ok (uploadResultObject 1 0 1) ∧
    1 + 0 + 1 ≠ 1) := by
  refine ⟨⟨rfl, rfl⟩, rfl, rfl, by omega⟩

/-- C1 (amended): for every dataset the run returns the object
`(created, updated, total)` — no failed field (its lookup is absent), total
the dataset size.  The returned created + updated counters tally exactly the
items whose DB write committed: adding the items that threw before their
write restores the dataset size.  But an item whose write committed and
whose per-item render call then threw settles as failed while staying
counted in created/updated, so the settled-status accounting satisfies
created + updated + failed = total + (number of such post-commit render
failures), exceeding total whenever one occurs. -/
theorem c1_run_counters (store : List CountryRecord) (cache : Option Report)
    (items : List (IncomingCountry × ItemEnv)) :
    ∃ final : RunState,
      uploadCountry (Except.ok items) store cache =
        (final, Except.ok (uploadResultObject final.counters.created
          final.counters.updated items.length)) ∧
      final.counters.created + final.counters.updated +
          (items.filter (fun p => p.2.dbThrows)).length = items.length ∧
      final.counters.created + final.counters.updated +
          final.counters.failed
        = items.length +
            (items.filter (fun p => !p.2.dbThrows && p.2.renderThrows)).length ∧
      List.lookup "failed" (uploadResultObject final.counters.created
        final.counters.updated items.length) = none ∧
      List.lookup "total" (uploadResultObject final.counters.created
        final.counters.updated items.length) = some items.length := by
  refine ⟨runItems ⟨store, cache, initialCounters⟩ items, ?_, ?_, ?_, rfl, rfl⟩
  · simp only [uploadCountry, processedCount_eq]
  · rw [runItems_eq_foldl]
    obtain ⟨h1, _⟩ := foldl_counts items ⟨store, cache, initialCounters⟩
    rw [h1]
    have h2 := length_filter_db items
    simp [initialCounters]
    omega
  · rw [runItems_eq_foldl]
    obtain ⟨h1, h2⟩ := foldl_counts items ⟨store, cache, initialCounters⟩
    rw [h1, h2]
    have h3 := length_filter_db items
    have h4 := length_filter_or items
    simp only [initialCounters]
    omega

/-- C9: the run partitions the dataset into consecutive batches of size 10
(all nonempty, every batch but the last of size exactly 10), their
concatenation restores the dataset in order, and the run is the sequential
fold of batch processing over that partition — each batch fully settled
(its `Promise.allSettled` folded) before the next begins — which equals the
in-order fold over the whole dataset. -/
theorem c9_batching (items : List (IncomingCountry × ItemEnv)) :
    (chunkList items).flatten = items ∧
    (∀ b ∈ chunkList items, b ≠ [] ∧ b.length ≤ 10) ∧
    (∀ b ∈ (chunkList items).dropLast, b.length = 10) ∧
    (∀ st : RunState, runItems st items =
      (chunkList items).foldl processBatch st ∧
      runItems st items = items.foldl stepItem st) :=
  ⟨chunkList_join items, fun b hb => chunkList_mem_len items b hb,
    fun b hb => chunkList_full items b hb,
    fun st => ⟨rfl, runItems_eq_foldl st items⟩⟩

def c9Item : IncomingCountry × ItemEnv :=
  (⟨"Aland", "Mariehamn", "Europe", 30000, ["EUR"], "flag.png"⟩,
    ⟨1500, 1500, RatesFetch.failure, true, false⟩)

def c9Items : List (IncomingCountry × ItemEnv) := List.replicate 12 c9Item

/-- Witness for `c9_batching`: a 12-item dataset splits into a full batch of
10 followed by the remainder, and flattening restores the dataset. -/
theorem c9_witness :
    (chunkList c9Items).flatten = c9Items ∧
    (List.replicate 10 c9Item).length = 10 :=
  ⟨(c9_batching c9Items).1,
    (c9_batching c9Items).2.2.1 (List.replicate 10 c9Item) (by decide)⟩
